import Mathlib

/-!
Shallow embedding of the privilege-separated MacPorts packaging daemon
(`Code/autopkgserver/portpackager.py`) and of its unprivileged client
processor (`Code/autopkglib/MacPortPackager.py`).

Filesystem state, child-process execution and directory listings are
modelled as explicit oracles in a `Sys` record (respectively a `ClientEnv`
record on the client side); Python exceptions are modelled as an explicit
error type returned through `Except`.  Child processes handed to
`subprocess.Popen` are recorded as a trace of argument lists (the daemon
never uses `shell=True`: every command is an argv list).
-/

/-! ## Python string primitives -/

/-- Python `str.split(sep)` for a one-character separator, on a character
list: always returns at least one piece, and `"".split(sep) == [""]`. -/
def pySplitChar (sep : Char) : List Char → List (List Char)
  | [] => [[]]
  | c :: cs =>
    let r := pySplitChar sep cs
    if c = sep then [] :: r
    else (c :: r.headD []) :: r.tail

/-- Python `str.split(sep)` for a one-character separator. -/
def pySplit (sep : Char) (s : String) : List String :=
  (pySplitChar sep s.data).map String.mk

/-- Python `str.splitlines()` on a character list: pieces between line
breaks (`\n`, `\r`, `\r\n`), with no empty final piece after a trailing
break and `[]` for the empty string.  `acc` holds the current line
reversed. -/
def pySplitlinesAux : List Char → List Char → List (List Char)
  | acc, [] => if acc.isEmpty then [] else [acc.reverse]
  | acc, '\r' :: '\n' :: rest => acc.reverse :: pySplitlinesAux [] rest
  | acc, '\r' :: rest => acc.reverse :: pySplitlinesAux [] rest
  | acc, '\n' :: rest => acc.reverse :: pySplitlinesAux [] rest
  | acc, c :: rest => pySplitlinesAux (c :: acc) rest

/-- Python `str.splitlines()`. -/
def pySplitlines (s : String) : List String :=
  (pySplitlinesAux [] s.data).map String.mk

/-- The characters Python's no-argument `str.split()`, `str.rstrip()` and
friends treat as whitespace. -/
def isPyWs (c : Char) : Bool :=
  c = ' ' || c = '\t' || c = '\n' || c = '\r' ||
    c = Char.ofNat 11 || c = Char.ofNat 12

/-- Python `sep.join(l)`. -/
def pyJoinWith (sep : String) : List String → String
  | [] => ""
  | [x] => x
  | x :: xs => x ++ sep ++ pyJoinWith sep xs

/-- Python `" ".join(s.split())`: collapse every whitespace run to a single
space and strip the ends (the daemon's normalization of captured stderr). -/
def pyNormWs (s : String) : String :=
  pyJoinWith " "
    (((s.data.splitOnP isPyWs).filter (fun w => !w.isEmpty)).map String.mk)

/-- Python `str.rstrip()` (no argument): drop trailing whitespace. -/
def pyRstrip (s : String) : String :=
  String.mk (s.data.reverse.dropWhile isPyWs).reverse

/-- Python `s.startswith(p)` (structural, so concrete instances compute in
the kernel). -/
def pyStartsWith (s p : String) : Bool := p.data.isPrefixOf s.data

/-- Python `s.endswith(p)`. -/
def pyEndsWith (s p : String) : Bool := p.data.reverse.isPrefixOf s.data.reverse

/-- Python `s.replace(pat, rep)` for a non-empty `pat`: replace every
non-overlapping occurrence, scanning left to right.  The fuel argument
(called with the list's length) only serves structural termination; an
empty `pat` is treated as matching nowhere (Python would instead
interleave `rep` everywhere, a case the embedded code never exercises). -/
def pyReplaceAux (pat rep : List Char) : Nat → List Char → List Char
  | _, [] => []
  | 0, l => l
  | Nat.succ n, c :: cs =>
    if pat.isPrefixOf (c :: cs) && !pat.isEmpty then
      rep ++ pyReplaceAux pat rep n ((c :: cs).drop pat.length)
    else c :: pyReplaceAux pat rep n cs

/-- Python `s.replace(pat, rep)`. -/
def pyReplace (s pat rep : String) : String :=
  String.mk (pyReplaceAux pat.data rep.data s.data.length s.data)

/-! ## The daemon's regular expressions

All three patterns in the source are anchored `^...$` patterns used via
`.search`.  With no `re.MULTILINE`, `^` only matches at the start of the
string, while Python's `$` matches at the end of the string *or just
before a newline at the end of the string* — so each of these patterns
also accepts its language followed by one trailing `'\n'`. -/

/-- Python `re.search` of an anchored `^...$` pattern whose unanchored body
is decided by `core`: a match of the whole string, or of the whole string
minus one trailing newline. -/
def pyAnchoredSearch (core : List Char → Bool) (s : String) : Bool :=
  match s.data.getLast? with
  | some c => if c = '\n' then core s.data || core s.data.dropLast else core s.data
  | none => core s.data

/-- `[a-z0-9]` under `re.I` in the C locale: ASCII letters and digits. -/
def isPyAlnum (c : Char) : Bool := c.isAlpha || c.isDigit

/-- Body of `re_portname = re.compile(r'^[a-z0-9][a-z0-9._\-]*$', re.I)`. -/
def portnameCore : List Char → Bool
  | [] => false
  | c :: cs => isPyAlnum c && cs.all (fun d => isPyAlnum d || d = '.' || d = '_' || d = '-')

/-- `PortPackager.re_portname` applied with `.search`. -/
def re_portname (s : String) : Bool := pyAnchoredSearch portnameCore s

/-- `PortPackager.re_variant`: the source compiles the identical pattern a
second time. -/
def re_variant (s : String) : Bool := pyAnchoredSearch portnameCore s

/-- Second phase of `^@[0-9.]*[0-9_]*$`: the `[0-9_]*` suffix. -/
def versTail2 : List Char → Bool
  | [] => true
  | c :: cs => (c.isDigit || c = '_') && versTail2 cs

/-- First phase of `^@[0-9.]*[0-9_]*$`: consume `[0-9.]*` greedily and
switch to the `[0-9_]*` suffix at the first underscore.  Digits are
accepted by both character classes, so the greedy scan decides the same
language as the regular expression. -/
def versTail1 : List Char → Bool
  | [] => true
  | c :: cs =>
    if c.isDigit || c = '.' then versTail1 cs
    else if c = '_' then versTail2 cs
    else false

/-- Body of `re_version = re.compile(r'^@[0-9.]*[0-9_]*$', re.I)`: note the
*mandatory* leading `'@'`. -/
def versCore : List Char → Bool
  | [] => false
  | c :: cs => c = '@' && versTail1 cs

/-- `PortPackager.re_version` applied with `.search`. -/
def re_version (s : String) : Bool := pyAnchoredSearch versCore s

/-! ## Data model -/

/-- A decoded packaging request as the daemon sees it (`self.request`):
`'version' in self.request` and `'variants' in self.request` are modelled
by the options being `some`. -/
structure Request where
  port : String
  version : Option String
  variants : Option (List String)
  pkgdir : String
deriving DecidableEq

/-- What `os.lstat` reports about a path, restricted to the fields the
daemon inspects. -/
structure FileInfo where
  st_uid : Nat
  isLink : Bool
  isDir : Bool
deriving DecidableEq

/-- Exit code and captured output of a completed child process. -/
structure ProcResult where
  returncode : Int
  out : String
  err : String
deriving DecidableEq

/-- The `OSError` `subprocess.Popen` raises when the child cannot be
spawned. -/
structure OSErr where
  errno : Int
  strerror : String
deriving DecidableEq

/-- The oracles the daemon's code consults: `lstat` (with `none` standing
for an `OSError` from `os.lstat`), spawning `/opt/local/bin/port` with a
given argv list, and `os.listdir`. -/
structure Sys where
  lstat : String → Option FileInfo
  runPort : List String → Except OSErr ProcResult
  listdir : String → List String

/-! ## Exceptions -/

/-- The payloads of the `PortPackagerError`s the daemon raises, one
constructor per raise site; `render` gives the exact Python message. -/
inductive PkgMsg where
  | invalidPackageName
  | invalidPackageVariant
  | versionTooLong
  | invalidVersion (v : String)
  | invalidVersionComponent (c : String)
  | portCleanOSErr (errno : Int) (strerror : String)
  | portCleanExit (code : Int) (errWs : String)
  | portPkgOSErr (errno : Int) (strerror : String)
  | portPkgExit (code : Int) (errWs : String)
deriving DecidableEq

/-- The exact message string each raise site formats. -/
def PkgMsg.render : PkgMsg → String
  | invalidPackageName => "Invalid package name"
  | invalidPackageVariant => "Invalid package variant"
  | versionTooLong => "Version too long"
  | invalidVersion v => "Invalid version \"" ++ v ++ "\""
  | invalidVersionComponent c => "Invalid version component \"" ++ c ++ "\""
  | portCleanOSErr n s => "Port clean failed with error code " ++ toString n ++ ": " ++ s
  | portCleanExit n e => "Port clean failed with exit code " ++ toString n ++ ": " ++ e
  | portPkgOSErr n s => "Port package execution failed with error code " ++ toString n ++ ": " ++ s
  | portPkgExit n e => "Port package with exit code " ++ toString n ++ ": " ++ e

/-- The Python exceptions that can escape the embedded code.  `nameError`
models a reference to an undefined global (such as `PackagerError`, which
`portpackager.py` never defines or imports); `attributeError` models
attribute lookup failing on `self`; `indexError` a bad list subscript;
`processorError` the client library's `ProcessorError`. -/
inductive PyErr where
  | nameError (name : String)
  | attributeError (name : String)
  | indexError
  | osError (errno : Int) (strerror : String)
  | portPackagerError (msg : PkgMsg)
  | processorError (msg : String)
deriving DecidableEq

/-! ## The daemon (`PortPackager`) -/

/-- The attributes class `PortPackager` actually defines (its `def`
statements); `find_mpkg_path`, which `create_pkg` calls, is not among
them. -/
def portPackagerMethods : List String :=
  ["__init__", "package", "verify_dir_and_owner", "verify_request",
   "cmd_output", "clean_port", "find_work_path", "find_mpkg_name",
   "create_pkg", "cleanup"]

/-- Attribute lookup `self.<name>` on a `PortPackager` instance: an
`AttributeError` when the class defines no such method. -/
def resolveAttr (name : String) : Except PyErr String :=
  if portPackagerMethods.contains name then Except.ok name
  else Except.error (PyErr.attributeError name)

/-- `PortPackager.verify_dir_and_owner` (portpackager.py:73-83).  Every one
of its four raise statements names `PackagerError`, a global that the
module never defines or imports, so each failing check actually raises
`NameError` (evaluating the name `PackagerError` fails before the message
is even formatted).  The checks run in source order: stat, owner, symlink,
directory. -/
def verify_dir_and_owner (sys : Sys) (path : String) (uid : Nat) : Except PyErr Unit :=
  match sys.lstat path with
  | none => Except.error (PyErr.nameError "PackagerError")
  | some info =>
    if info.st_uid ≠ uid then Except.error (PyErr.nameError "PackagerError")
    else if info.isLink then Except.error (PyErr.nameError "PackagerError")
    else if !info.isDir then Except.error (PyErr.nameError "PackagerError")
    else Except.ok ()

/-- The `for variant in self.request.variants` loop of `verify_request`:
the first entry failing `re_variant` raises. -/
def checkVariants : List String → Except PyErr Unit
  | [] => Except.ok ()
  | v :: vs =>
    if re_variant v then checkVariants vs
    else Except.error (PyErr.portPackagerError PkgMsg.invalidPackageVariant)

/-- The `if 'variants' in self.request` guard around the variants loop. -/
def checkVariantsOpt : Option (List String) → Except PyErr Unit
  | none => Except.ok ()
  | some vs => checkVariants vs

/-- The `for comp in components` loop of `verify_request`: the first
component failing `re_version` raises, naming the component. -/
def checkComponents : List String → Except PyErr Unit
  | [] => Except.ok ()
  | c :: cs =>
    if re_version c then checkComponents cs
    else Except.error (PyErr.portPackagerError (PkgMsg.invalidVersionComponent c))

/-- The version block of `verify_request` (portpackager.py:106-115): length
cap, split on `"."`, components-count guard, per-component pattern
check. -/
def checkVersion (ver : String) : Except PyErr Unit :=
  if ver.length > 40 then Except.error (PyErr.portPackagerError PkgMsg.versionTooLong)
  else
    let components := pySplit '.' ver
    if components.length < 1 then
      Except.error (PyErr.portPackagerError (PkgMsg.invalidVersion ver))
    else checkComponents components

/-- The `if 'version' in self.request` guard around the version block. -/
def checkVersionOpt : Option String → Except PyErr Unit
  | none => Except.ok ()
  | some ver => checkVersion ver

/-- `PortPackager.verify_request` (portpackager.py:85-119): directory and
owner checks on `pkgdir`, then the port-name pattern, then variants, then
the version block.  Log calls are no-ops. -/
def verify_request (sys : Sys) (req : Request) (uid : Nat) : Except PyErr Unit :=
  match verify_dir_and_owner sys req.pkgdir uid with
  | Except.error e => Except.error e
  | Except.ok _ =>
    if !re_portname req.port then
      Except.error (PyErr.portPackagerError PkgMsg.invalidPackageName)
    else
      match checkVariantsOpt req.variants with
      | Except.error e => Except.error e
      | Except.ok _ => checkVersionOpt req.version

/-- The argv list of the clean step (`port clean --all <port>`). -/
def cleanCmd (req : Request) : List String :=
  ["/opt/local/bin/port", "clean", "--all", req.port]

/-- The argv list of the locate-work-area step (`port work <port>`). -/
def workCmd (req : Request) : List String :=
  ["/opt/local/bin/port", "work", req.port]

/-- The argv list of the build step, built exactly as `create_pkg` does:
start from `["/opt/local/bin/port", "mpkg", port]`, `cmd.extend` the
version if the request has one, then `cmd.extend` the variants if the
request has them. -/
def buildCmd (req : Request) : List String :=
  let cmd := ["/opt/local/bin/port", "mpkg", req.port]
  let cmd := match req.version with
    | some v => cmd ++ [v]
    | none => cmd
  match req.variants with
  | some vs => cmd ++ vs
  | none => cmd

/-- `PortPackager.cmd_output` (portpackager.py:121-128): runs the command,
logs stderr (a no-op here) and returns `(stdout, stderr)`.  It never
inspects `returncode`, and it does not catch the `OSError` a failed spawn
raises. -/
def cmd_output (sys : Sys) (cmd : List String) : Except PyErr (String × String) :=
  match sys.runPort cmd with
  | Except.error e => Except.error (PyErr.osError e.errno e.strerror)
  | Except.ok r => Except.ok (r.out, r.err)

/-- `PortPackager.find_work_path` (portpackager.py:150-156):
`out.splitlines()[0]`, which raises `IndexError` when the captured stdout
has no lines at all. -/
def find_work_path (sys : Sys) (req : Request) : Except PyErr String :=
  match cmd_output sys (workCmd req) with
  | Except.error e => Except.error e
  | Except.ok (out, _) =>
    match pySplitlines out with
    | [] => Except.error PyErr.indexError
    | line :: _ => Except.ok line

/-- `fnmatch.fnmatch(file, port + '-*.mpkg')` on macOS (identity
`normcase`): the file is the literal `port`, a `'-'`, anything at all, and
the literal `".mpkg"`.  The length bound makes the prefix and suffix
non-overlapping, which is exactly the glob's meaning. -/
def fnmatchMpkg (port f : String) : Bool :=
  pyStartsWith f (port ++ "-") && pyEndsWith f ".mpkg" && port.length + 6 ≤ f.length

/-- `PortPackager.find_mpkg_name` (portpackager.py:158-162): the first
directory entry matching the glob, and — the loop falling through —
Python's implicit `None` when nothing matches; no exception is raised for
a missing artifact. -/
def find_mpkg_name (sys : Sys) (req : Request) : Except PyErr (Option String) :=
  match find_work_path sys req with
  | Except.error e => Except.error e
  | Except.ok wp => Except.ok ((sys.listdir wp).find? (fnmatchMpkg req.port))

/-- `PortPackager.clean_port` (portpackager.py:130-148).  The second
component of the pair is the trace of argv lists handed to
`subprocess.Popen` (recorded even when the spawn itself fails). -/
def clean_port (sys : Sys) (req : Request) : Except PyErr Unit × List (List String) :=
  match sys.runPort (cleanCmd req) with
  | Except.error e =>
    (Except.error (PyErr.portPackagerError (PkgMsg.portCleanOSErr e.errno e.strerror)),
     [cleanCmd req])
  | Except.ok r =>
    if r.returncode ≠ 0 then
      (Except.error (PyErr.portPackagerError
        (PkgMsg.portCleanExit r.returncode (pyNormWs r.err))), [cleanCmd req])
    else (Except.ok (), [cleanCmd req])

/-- `PortPackager.create_pkg` (portpackager.py:164-197): clean, build, then
`pkgname = self.find_mpkg_path()`.  The class defines no attribute
`find_mpkg_path` (only `find_mpkg_name`), so that attribute lookup raises
`AttributeError` and the rename/chown/return lines below it can never
execute; the `Except.ok` branch of the lookup is unreachable. -/
def create_pkg (sys : Sys) (req : Request) : Except PyErr String × List (List String) :=
  match clean_port sys req with
  | (Except.error e, t) => (Except.error e, t)
  | (Except.ok _, t) =>
    match sys.runPort (buildCmd req) with
    | Except.error e =>
      (Except.error (PyErr.portPackagerError (PkgMsg.portPkgOSErr e.errno e.strerror)),
       t ++ [buildCmd req])
    | Except.ok r =>
      if r.returncode ≠ 0 then
        (Except.error (PyErr.portPackagerError
          (PkgMsg.portPkgExit r.returncode (pyNormWs r.err))), t ++ [buildCmd req])
      else
        match resolveAttr "find_mpkg_path" with
        | Except.error e => (Except.error e, t ++ [buildCmd req])
        | Except.ok _ =>
          (Except.error (PyErr.attributeError "find_mpkg_path"), t ++ [buildCmd req])

/-- `PortPackager.package` (portpackager.py:64-71): verify, then build;
`cleanup` in the `finally` block is a no-op (its body is commented out in
the source). -/
def package (sys : Sys) (req : Request) (uid : Nat) :
    Except PyErr String × List (List String) :=
  match verify_request sys req uid with
  | Except.error e => (Except.error e, [])
  | Except.ok _ => create_pkg sys req

/-! ## The client (`MacPortPackager`) -/

/-- The client's environment: the recipe directories, an `os.path.exists`
oracle, and `os.path.normpath` kept abstract (it is a pure string
normalization the claims do not depend on).  `parentRecipes` holds
`self.env["PARENT_RECIPES"]`, with the empty list standing for an absent
or falsy value. -/
structure ClientEnv where
  recipeCacheDir : String
  recipeDir : String
  parentRecipes : List String
  pathExists : String → Bool
  normpath : String → String

/-- `posixpath.dirname`: everything up to the last `'/'`, with trailing
slashes stripped unless the head is all slashes. -/
def posixDirname (s : String) : String :=
  let l := s.data
  match l.reverse.findIdx? (fun c => c = '/') with
  | none => ""
  | some i =>
    let head := l.take (l.length - i)
    if head.all (fun c => c = '/') then String.mk head
    else String.mk (head.reverse.dropWhile (fun c => c = '/')).reverse

/-- `os.path.join(d, r)` on posix for two components. -/
def pyJoin (d r : String) : String :=
  if pyStartsWith r "/" then r
  else if d = "" then r
  else if pyEndsWith d "/" then d ++ r
  else d ++ "/" ++ r

/-- The search directories of `find_path_for_relpath`: the recipe cache
directory, the recipe directory, then — when `PARENT_RECIPES` is truthy —
the deduplicated parent-recipe directories.  CPython's `list(set(...))`
order is implementation-defined; the model fixes first-occurrence order,
and no claim depends on the order inside this last group. -/
def searchDirs (env : ClientEnv) : List String :=
  [env.recipeCacheDir, env.recipeDir] ++
    (if env.parentRecipes.isEmpty then []
     else (env.parentRecipes.map posixDirname).eraseDups)

/-- `MacPortPackager.find_path_for_relpath` (MacPortPackager.py:50-70):
the normalized join with the first search directory in which the relative
path exists, else `ProcessorError("Can't find ...")`. -/
def find_path_for_relpath (env : ClientEnv) (relpath : String) : Except PyErr String :=
  match (searchDirs env).find? (fun d => env.pathExists (pyJoin d relpath)) with
  | some d => Except.ok (env.normpath (pyJoin d relpath))
  | none => Except.error (PyErr.processorError ("Can't find " ++ relpath))

/-- A client-side `pkg_request` before `package()` fills in defaults:
`pkgdir` may still be absent. -/
structure ClientRequest where
  port : String
  version : Option String
  variants : Option (List String)
  pkgdir : Option String

/-- The `pkgdir` value `MacPortPackager.package` (MacPortPackager.py:80-89)
sends to the daemon: default it to `RECIPE_CACHE_DIR` when absent, then —
only when the value is truthy (non-empty) and does not start with `"/"` —
resolve it with `find_path_for_relpath`.  Among the request's standard
keys (`port`, `version`, `variants`, `pkgdir`) only `pkgdir` satisfies the
loop's `key in ("pkgdir")` substring test, so the loop is exactly this one
update. -/
def preparedPkgdir (env : ClientEnv) (req : ClientRequest) : Except PyErr String :=
  let v := match req.pkgdir with
    | none => env.recipeCacheDir
    | some v => v
  if v != "" && !(pyStartsWith v "/") then find_path_for_relpath env v
  else Except.ok v

/-- `MacPortPackager.send_request` (MacPortPackager.py:123-136) as a
function of the full reply text: an `"OK:"` reply yields the path (every
occurrence of `"OK:"` deleted, then `rstrip`); anything else is split into
lines, the `if not errors` fallback fires only when that list is empty,
and a `ProcessorError` joins the lines with `"ERROR:"` deleted. -/
def send_request (reply : String) : Except PyErr String :=
  if pyStartsWith reply "OK:" then
    Except.ok (pyRstrip (pyReplace reply "OK:" ""))
  else
    let errors := pySplit '\n' (pyRstrip reply)
    let errors := if errors.isEmpty then
        ["ERROR:No reply from server (crash?), check system logs"]
      else errors
    Except.error (PyErr.processorError
      (pyJoinWith ", " (errors.map (fun s => pyReplace s "ERROR:" ""))))

/-! ## Spec-side definition for comparison, decidability, fixtures -/

deriving instance DecidableEq for Except

/-- The identifier pattern exactly as the claims word it: an alphanumeric
first character followed only by alphanumerics, dot, underscore, or hyphen
— with no allowance for a trailing newline.  Stated from the claim's
words, to be compared with the code's `re_portname`. -/
def specIdentPattern (s : String) : Bool := portnameCore s.data

/-- Is this outcome the `Invalid version "%s"` error (the raise guarded by
the components-count check)? -/
def isInvalidVersionErr : Except PyErr Unit → Bool
  | Except.error (PyErr.portPackagerError (PkgMsg.invalidVersion _)) => true
  | _ => false

/-- `lstat` answer for a plain directory owned by uid 501. -/
def dirOkInfo : FileInfo := { st_uid := 501, isLink := false, isDir := true }

/-- Every path is a caller-owned directory, every `port` invocation exits 0
with empty output, every directory listing is empty. -/
def sysOk : Sys :=
  { lstat := fun _ => some dirOkInfo
    runPort := fun _ => Except.ok { returncode := 0, out := "", err := "" }
    listdir := fun _ => [] }

/-- Like `sysOk` but `os.lstat` fails on every path. -/
def sysNoDir : Sys := { sysOk with lstat := fun _ => none }

/-- Like `sysOk` but every `port` invocation exits 1 while still printing a
work path on stdout. -/
def sysWorkExit1 : Sys :=
  { sysOk with runPort := fun _ =>
      Except.ok { returncode := 1, out := "/work/path\n", err := "boom" } }

/-- Like `sysOk` but `port work` prints a work directory whose listing
contains no `.mpkg` file at all. -/
def sysNoMpkg : Sys :=
  { sysOk with
      runPort := fun _ => Except.ok { returncode := 0, out := "/work/dir\n", err := "" }
      listdir := fun _ => ["foo.txt", "PortIndex"] }

/-- Like `sysNoMpkg` with a different non-matching listing. -/
def sysNoMpkg2 : Sys := { sysNoMpkg with listdir := fun _ => ["README"] }

/-- The spec's example request with the dotted-numeric version `"1.21"`. -/
def req121 : Request :=
  { port := "wget", version := some "1.21", variants := none, pkgdir := "/tmp/out" }

/-- A request whose version starts with the `'@'` marker. -/
def reqAt1 : Request :=
  { port := "wget", version := some "@1", variants := some ["ssl"], pkgdir := "/tmp/out" }

/-- A minimal request: port only. -/
def reqWget : Request :=
  { port := "wget", version := none, variants := none, pkgdir := "/tmp/out" }

/-- A port name with a trailing newline: outside the claims' identifier
pattern, yet accepted by the code's `$`-anchored search. -/
def reqNewline : Request :=
  { port := "wget\n", version := none, variants := none, pkgdir := "/tmp/out" }

/-- The spec's shell-metacharacter example of an invalid port name. -/
def reqShellMeta : Request :=
  { port := "wget; rm -rf /", version := none, variants := none, pkgdir := "/tmp/out" }

/-- A request with version and two variants, for the build argv shape. -/
def reqFull : Request :=
  { port := "wget", version := some "@1", variants := some ["ssl", "x11"],
    pkgdir := "/tmp/out" }

/-- A client environment in which no path exists. -/
def envNothing : ClientEnv :=
  { recipeCacheDir := "/cache", recipeDir := "/recipes", parentRecipes := [],
    pathExists := fun _ => false, normpath := id }

/-- A client environment in which every path exists. -/
def envAll : ClientEnv :=
  { recipeCacheDir := "/cache", recipeDir := "/recipes", parentRecipes := [],
    pathExists := fun _ => true, normpath := id }

/-- A client request whose `pkgdir` is the empty string: a value that does
not start with `"/"` but is falsy in Python. -/
def creqEmptyPkgdir : ClientRequest :=
  { port := "wget", version := none, variants := none, pkgdir := some "" }

/-- A client request with a relative `pkgdir`. -/
def creqRel : ClientRequest :=
  { port := "wget", version := none, variants := none, pkgdir := some "rel" }

/-! ## Helper lemmas -/

/-- Splitting on a separator always yields at least one piece. -/
theorem pySplitChar_ne_nil (sep : Char) (l : List Char) : pySplitChar sep l ≠ [] := by
  cases l with
  | nil => simp [pySplitChar]
  | cons c cs =>
    simp only [pySplitChar]
    split <;> simp

/-- Python `split` never returns an empty list. -/
theorem pySplit_ne_nil (sep : Char) (s : String) : pySplit sep s ≠ [] := by
  simpa [pySplit] using pySplitChar_ne_nil sep s.data

/-- Every outcome of `verify_dir_and_owner` is either success or the
`NameError` raised by referencing the undefined global `PackagerError`. -/
theorem verify_dir_and_owner_cases (sys : Sys) (path : String) (uid : Nat) :
    verify_dir_and_owner sys path uid = Except.ok () ∨
      verify_dir_and_owner sys path uid = Except.error (PyErr.nameError "PackagerError") := by
  unfold verify_dir_and_owner
  cases sys.lstat path with
  | none => right; rfl
  | some info =>
    dsimp only
    split_ifs <;> simp

/-- The variants loop either succeeds or raises `Invalid package variant`. -/
theorem checkVariants_cases (l : List String) :
    checkVariants l = Except.ok () ∨
      checkVariants l = Except.error (PyErr.portPackagerError PkgMsg.invalidPackageVariant) := by
  induction l with
  | nil => left; rfl
  | cons v vs ih =>
    simp only [checkVariants]
    split
    · exact ih
    · right; rfl

/-- The guarded variants check either succeeds or raises
`Invalid package variant`. -/
theorem checkVariantsOpt_cases (o : Option (List String)) :
    checkVariantsOpt o = Except.ok () ∨
      checkVariantsOpt o = Except.error (PyErr.portPackagerError PkgMsg.invalidPackageVariant) := by
  cases o with
  | none => left; rfl
  | some vs => exact checkVariants_cases vs

/-- The component loop succeeds exactly when every component matches
`re_version`. -/
theorem checkComponents_ok_iff (l : List String) :
    checkComponents l = Except.ok () ↔ ∀ c ∈ l, re_version c = true := by
  induction l with
  | nil => simp [checkComponents]
  | cons c cs ih =>
    simp only [checkComponents]
    by_cases h : re_version c
    · simp [h, ih]
    · simp [h]

/-- The component loop never produces the `Invalid version "%s"` error (it
raises `Invalid version component "%s"` instead). -/
theorem checkComponents_no_invalidVersion (l : List String) :
    isInvalidVersionErr (checkComponents l) = false := by
  induction l with
  | nil => rfl
  | cons c cs ih =>
    simp only [checkComponents]
    split
    · exact ih
    · rfl

/-- The version block succeeds exactly when the version is at most 40
characters and every dot-split component matches `re_version`. -/
theorem checkVersion_ok_iff (v : String) :
    checkVersion v = Except.ok () ↔
      (v.length ≤ 40 ∧ ∀ c ∈ pySplit '.' v, re_version c = true) := by
  unfold checkVersion
  by_cases h : v.length > 40
  · simp only [if_pos h]
    constructor
    · intro he; exact absurd he (by simp)
    · rintro ⟨hle, _⟩; omega
  · have hle : v.length ≤ 40 := by omega
    simp only [if_neg h]
    have hlt : ¬ (pySplit '.' v).length < 1 := by
      cases hp : pySplit '.' v with
      | nil => exact absurd hp (pySplit_ne_nil '.' v)
      | cons a l => simp
    simp [hlt, checkComponents_ok_iff, hle]

/-- The guarded version block never produces the `Invalid version "%s"`
error. -/
theorem checkVersionOpt_no_invalidVersion (o : Option String) :
    isInvalidVersionErr (checkVersionOpt o) = false := by
  cases o with
  | none => rfl
  | some v =>
    simp only [checkVersionOpt, checkVersion]
    by_cases h : v.length > 40
    · simp [h, isInvalidVersionErr]
    · have hlt : ¬ (pySplit '.' v).length < 1 := by
        cases hp : pySplit '.' v with
        | nil => exact absurd hp (pySplit_ne_nil '.' v)
        | cons a l => simp
      simp only [if_neg h, if_neg hlt]
      exact checkComponents_no_invalidVersion _

/-- Attribute lookup of `find_mpkg_path` on the class fails: the method is
not defined. -/
theorem resolveAttr_find_mpkg_path :
    resolveAttr "find_mpkg_path" =
      Except.error (PyErr.attributeError "find_mpkg_path") := by decide

/-! ## Claims -/

/-- Claim C1 (counterexample): the plain dotted-numeric version `"1.21"`, 4
characters long with digit-only components, does not pass the version
checks: with the directory and port checks succeeding, `verify_request`
raises `Invalid version component "1"`, because `re_version` demands a
leading `'@'` in every component. -/
theorem c1_version_marker_counterexample :
    verify_request sysOk req121 501 =
      Except.error (PyErr.portPackagerError (PkgMsg.invalidVersionComponent "1")) := by
  decide

/-- Claim C1 (amended): for a request whose `version` is present and whose
directory, port-name and variants checks succeed, `verify_request` accepts
exactly when the version is at most 40 characters long and every component
of its split on `'.'` matches `re_version` — the pattern
`^@[0-9.]*[0-9_]*$` with a *mandatory* leading `'@'` marker (and, `$`
being Python's, an optional trailing newline). -/
theorem c1_version_acceptance (sys : Sys) (req : Request) (uid : Nat) (v : String)
    (hv : req.version = some v)
    (hdir : verify_dir_and_owner sys req.pkgdir uid = Except.ok ())
    (hport : re_portname req.port = true)
    (hvar : checkVariantsOpt req.variants = Except.ok ()) :
    verify_request sys req uid = Except.ok () ↔
      (v.length ≤ 40 ∧ ∀ c ∈ pySplit '.' v, re_version c = true) := by
  simp [verify_request, hdir, hport, hvar, hv, checkVersionOpt, checkVersion_ok_iff]

/-- Claim C1 (witness): the acceptance characterization applied to the
concrete accepted request with version `"@1"`. -/
theorem c1_version_acceptance_witness :
    verify_request sysOk reqAt1 501 = Except.ok () :=
  (c1_version_acceptance sysOk reqAt1 501 "@1" rfl (by decide) (by decide)
    (by decide)).mpr (by decide)

/-- Claim C2: whenever the clean and build invocations both succeed,
`create_pkg` does not rename, chown or return anything: it stops with
`AttributeError` on `self.find_mpkg_path()`, an attribute the class does
not define (it defines `find_mpkg_name`). -/
theorem c2_create_pkg_attribute_error (sys : Sys) (req : Request) (r1 r2 : ProcResult)
    (hclean : sys.runPort (cleanCmd req) = Except.ok r1) (hc0 : r1.returncode = 0)
    (hbuild : sys.runPort (buildCmd req) = Except.ok r2) (hb0 : r2.returncode = 0) :
    (create_pkg sys req).fst = Except.error (PyErr.attributeError "find_mpkg_path") ∧
      portPackagerMethods.contains "find_mpkg_path" = false ∧
      portPackagerMethods.contains "find_mpkg_name" = true := by
  refine ⟨?_, by decide, by decide⟩
  simp [create_pkg, clean_port, hclean, hc0, hbuild, hb0, resolveAttr_find_mpkg_path]

/-- Claim C2 (witness): the concrete minimal request under a system where
both toolchain invocations exit 0. -/
theorem c2_create_pkg_attribute_error_witness :
    (create_pkg sysOk reqWget).fst = Except.error (PyErr.attributeError "find_mpkg_path") ∧
      portPackagerMethods.contains "find_mpkg_path" = false ∧
      portPackagerMethods.contains "find_mpkg_name" = true :=
  c2_create_pkg_attribute_error sysOk reqWget
    { returncode := 0, out := "", err := "" } { returncode := 0, out := "", err := "" }
    rfl rfl rfl rfl

/-- Claim C3: every failing outcome of the target-directory checks is the
same `NameError` (the raise statements name the undefined global
`PackagerError`), not a packager-kind error naming the path and the
check; concretely, a missing `pkgdir` makes `verify_request` crash with
that `NameError`. -/
theorem c3_dir_checks_crash_with_NameError :
    (∀ sys path uid,
      verify_dir_and_owner sys path uid = Except.ok () ∨
        verify_dir_and_owner sys path uid = Except.error (PyErr.nameError "PackagerError")) ∧
      verify_request sysNoDir reqWget 501 = Except.error (PyErr.nameError "PackagerError") := by
  refine ⟨verify_dir_and_owner_cases, by decide⟩

/-- Claim C10: no input whatsoever makes `verify_request` raise the
`Invalid version "%s"` error: the branch guarded by the components-count
check is unreachable because splitting on `'.'` always yields at least one
component. -/
theorem c10_invalid_version_branch_unreachable (sys : Sys) (req : Request) (uid : Nat) :
    isInvalidVersionErr (verify_request sys req uid) = false := by
  unfold verify_request
  rcases verify_dir_and_owner_cases sys req.pkgdir uid with h | h <;> rw [h]
  · dsimp only
    by_cases hp : re_portname req.port
    · simp only [hp, Bool.not_true, Bool.false_eq_true, if_false]
      rcases checkVariantsOpt_cases req.variants with hv | hv <;> rw [hv]
      · exact checkVersionOpt_no_invalidVersion req.version
      · rfl
    · simp only [Bool.not_eq_true] at hp
      simp [hp, isInvalidVersionErr]
  · rfl

/-- Claim C4 (counterexample): the port name `"wget\n"` does not match the
identifier pattern as the claim words it, and `pkgdir` passes the
directory checks, yet `package` does not raise `Invalid package name`: the
`$`-anchored search accepts the trailing newline, both the clean and the
build child processes are spawned, and the run ends in the
`find_mpkg_path` `AttributeError` instead. -/
theorem c4_trailing_newline_counterexample :
    specIdentPattern "wget\n" = false ∧
      (package sysOk reqNewline 501).fst =
        Except.error (PyErr.attributeError "find_mpkg_path") ∧
      (package sysOk reqNewline 501).snd = [cleanCmd reqNewline, buildCmd reqNewline] := by
  decide

/-- Claim C4 (amended): for every request whose `port` fails the code's
regex — the identifier pattern optionally followed by one trailing
newline — while `pkgdir` passes the directory checks, `package` raises
`Invalid package name` and spawns no child process at all. -/
theorem c4_invalid_name_no_spawn (sys : Sys) (req : Request) (uid : Nat)
    (hdir : verify_dir_and_owner sys req.pkgdir uid = Except.ok ())
    (hport : re_portname req.port = false) :
    package sys req uid =
      (Except.error (PyErr.portPackagerError PkgMsg.invalidPackageName), []) := by
  simp [package, verify_request, hdir, hport]

/-- Claim C4 (witness): the spec's shell-metacharacter port name, rejected
with no spawned child. -/
theorem c4_invalid_name_no_spawn_witness :
    package sysOk reqShellMeta 501 =
      (Except.error (PyErr.portPackagerError PkgMsg.invalidPackageName), []) :=
  c4_invalid_name_no_spawn sysOk reqShellMeta 501 (by decide) (by decide)

/-- Claim C5 (counterexample): a `work` subcommand that exits 1 but prints
a path causes no failure at all (`find_work_path` silently succeeds), and
a `work` subcommand with empty output raises `IndexError` — an unhandled
crash, not a packager-kind error. -/
theorem c5_work_failure_counterexample :
    find_work_path sysWorkExit1 reqWget = Except.ok "/work/path" ∧
      find_work_path sysOk reqWget = Except.error PyErr.indexError := by
  decide

/-- Claim C5 (amended): whenever the `work` child process spawns, the work
path is the first line of its stdout irrespective of its exit code —
`cmd_output` never inspects `returncode` — and stdout with no lines raises
an uncaught `IndexError` rather than a packager-kind error. -/
theorem c5_work_path_first_line (sys : Sys) (req : Request) (r : ProcResult)
    (h : sys.runPort (workCmd req) = Except.ok r) :
    find_work_path sys req =
      (match pySplitlines r.out with
       | [] => Except.error PyErr.indexError
       | line :: _ => Except.ok line) := by
  simp [find_work_path, cmd_output, h]

/-- Claim C5 (witness): the characterization applied to a concrete system
whose `work` output is empty. -/
theorem c5_work_path_first_line_witness :
    find_work_path sysOk reqWget = Except.error PyErr.indexError := by
  have h := c5_work_path_first_line sysOk reqWget
    { returncode := 0, out := "", err := "" } rfl
  simpa using h

/-- Claim C6: when the request reaches the build step (the clean spawn
exits 0), the spawned argv lists are exactly the clean command followed by
the build command, and the build argv is the toolchain program, `"mpkg"`,
the port, then the version as one element exactly when present, then the
variants in order exactly when present — discrete list elements, never a
concatenated string (the model passes argv lists; the source never sets
`shell=True`). -/
theorem c6_build_argv_shape (sys : Sys) (req : Request) (r : ProcResult)
    (hclean : sys.runPort (cleanCmd req) = Except.ok r) (h0 : r.returncode = 0) :
    (create_pkg sys req).snd = [cleanCmd req, buildCmd req] ∧
      buildCmd req = ["/opt/local/bin/port", "mpkg", req.port] ++
        (match req.version with | some v => [v] | none => []) ++
        (match req.variants with | some vs => vs | none => []) := by
  constructor
  · simp only [create_pkg, clean_port, hclean, h0]
    cases hb : sys.runPort (buildCmd req) with
    | error e => simp [hb]
    | ok r2 =>
      by_cases h2 : r2.returncode = 0
      · simp [hb, h2, resolveAttr_find_mpkg_path]
      · simp [hb, h2]
  · cases hv : req.version <;> cases hw : req.variants <;> simp [buildCmd, hv, hw]

/-- Claim C6 (witness): the shape at a request carrying a version and two
variants. -/
theorem c6_build_argv_shape_witness :
    (create_pkg sysOk reqFull).snd = [cleanCmd reqFull, buildCmd reqFull] ∧
      buildCmd reqFull = ["/opt/local/bin/port", "mpkg", reqFull.port] ++
        (match reqFull.version with | some v => [v] | none => []) ++
        (match reqFull.variants with | some vs => vs | none => []) :=
  c6_build_argv_shape sysOk reqFull { returncode := 0, out := "", err := "" } rfl rfl

/-- Claim C7 (counterexample): with the work directory listing containing
no `wget-*.mpkg` file, `find_mpkg_name` returns Python's implicit `None`
as a success value — no `PortPackagerError` (and no "could not locate
built package" message, which appears nowhere in the source) is raised. -/
theorem c7_no_match_counterexample :
    find_mpkg_name sysNoMpkg reqWget = Except.ok none := by decide

/-- Claim C7 (amended): whenever the work path is found and no filename in
its listing matches the `<port>-*.mpkg` glob, `find_mpkg_name` returns
`none` without raising anything. -/
theorem c7_no_match_returns_none (sys : Sys) (req : Request) (wp : String)
    (hwp : find_work_path sys req = Except.ok wp)
    (hnone : ∀ f ∈ sys.listdir wp, fnmatchMpkg req.port f = false) :
    find_mpkg_name sys req = Except.ok none := by
  simp only [find_mpkg_name, hwp]
  simp [List.find?_eq_none]
  intro f hf
  simpa using hnone f hf

/-- Claim C7 (witness): the amended statement at a concrete listing. -/
theorem c7_no_match_returns_none_witness :
    find_mpkg_name sysNoMpkg2 reqWget = Except.ok none :=
  c7_no_match_returns_none sysNoMpkg2 reqWget "/work/dir" (by decide) (by decide)

/-- Claim C8: the `"No reply from server (crash?), check system logs"`
fallback is dead code: `split` never returns an empty list, so an empty
reply raises `ProcessorError` with the *empty* message, and a prefix-less
reply raises with the reply text itself. -/
theorem c8_no_reply_fallback_dead :
    send_request "" = Except.error (PyErr.processorError "") ∧
      send_request "garbage" = Except.error (PyErr.processorError "garbage") ∧
      (∀ s : String, (pySplit '\n' s).isEmpty = false) := by
  refine ⟨by decide, by decide, fun s => ?_⟩
  cases h : pySplit '\n' s with
  | nil => exact absurd h (pySplit_ne_nil '\n' s)
  | cons a l => rfl

/-- Claim C9 (counterexample): a `pkgdir` of `""` does not start with `"/"`
(so the claim calls for resolution or a "Can't find" error — nothing
exists in this environment), yet the code sends it unresolved: Python's
truthiness test skips empty values. -/
theorem c9_empty_pkgdir_counterexample :
    pyStartsWith "" "/" = false ∧
      preparedPkgdir envNothing creqEmptyPkgdir = Except.ok "" := by decide

/-- Claim C9 (amended): an absent `pkgdir` is defaulted to the recipe cache
directory before anything else; a present, *non-empty* value not starting
with `"/"` is replaced by the normalized join with the first search
directory in which it exists, with `ProcessorError "Can't find ..."` when
no search directory contains it; and the search order is the recipe cache
directory, the recipe directory, then the deduplicated parent-recipe
directories. -/
theorem c9_pkgdir_resolution (env : ClientEnv) (req : ClientRequest) :
    (req.pkgdir = none →
      preparedPkgdir env req =
        preparedPkgdir env { req with pkgdir := some env.recipeCacheDir }) ∧
      (∀ v, req.pkgdir = some v → v ≠ "" → pyStartsWith v "/" = false →
        preparedPkgdir env req =
          (match (searchDirs env).find? (fun d => env.pathExists (pyJoin d v)) with
           | some d => Except.ok (env.normpath (pyJoin d v))
           | none => Except.error (PyErr.processorError ("Can't find " ++ v)))) ∧
      searchDirs env = [env.recipeCacheDir, env.recipeDir] ++
        (if env.parentRecipes.isEmpty then []
         else (env.parentRecipes.map posixDirname).eraseDups) := by
  refine ⟨fun h => ?_, fun v hv hne hns => ?_, rfl⟩
  · simp [preparedPkgdir, h]
  · simp [preparedPkgdir, hv, hne, hns, find_path_for_relpath]

/-- Claim C9 (witness): the resolution applied to a concrete relative
`pkgdir` that exists under the cache directory. -/
theorem c9_pkgdir_resolution_witness :
    preparedPkgdir envAll creqRel = Except.ok "/cache/rel" := by
  have h := (c9_pkgdir_resolution envAll creqRel).2.1 "rel" rfl (by decide) (by decide)
  rw [h]; decide
